import Mathlib

/-!
Verification of the property-vectorization engine of this repository
(`app/qdrant/propertyVectorize.py` together with the identifier-derivation
policy of `app/routes/qdrant.py`), as a shallow embedding in Lean 4.

Modelling conventions:
* CPython floats are modelled by `PyFloat`: a finite value carried as an
  exact rational, positive or negative infinity, or NaN.  Finite
  arithmetic is exact (the standard idealization of rounding; every
  concrete number occurring in the claims is exactly representable),
  while the non-finite values and their propagation through arithmetic,
  string conversion (`float("inf")`, `float("nan")`, overflowing decimal
  literals) and the scaler's input validation follow CPython and
  numpy/sklearn semantics.
* JSON-decoded Python values are modelled by `Value`; Python `None` is
  `Value.null`, Python dicts are association lists.
* Fallible Python code (`AttributeError` on `.get` of a non-dict,
  sklearn's `NotFittedError` and input-validation `ValueError`) is
  modelled with `Except PyErr`.
* `hashlib.md5` is implemented bit-faithfully on byte lists (RFC 1321),
  with 32-bit arithmetic carried out on `Nat` modulo `2 ^ 32`.
* `sklearn.preprocessing.StandardScaler` is modelled by its documented
  behaviour: input validation that rejects infinities but admits NaN
  (`force_all_finite='allow-nan'`), NaN-aware per-column statistics
  (`nanmean`/`nanvar`, an all-NaN column giving NaN), the zero-variance
  fallback scale of `1`, `NotFittedError` when `transform` is called
  before `fit`, and a validation `ValueError` on a zero-sample batch.
  The square root used for the standard deviation is irrational in
  general, so the model is parametric in a function `sqrtQ : ℚ → ℚ` for
  the finite case; every theorem below holds for an arbitrary such
  function, hence in particular for the true square root.
-/

/-- A CPython float: a finite value (an exact rational in this model),
positive infinity, negative infinity, or NaN.  Signed zero is collapsed
to `0` (no claim distinguishes `-0.0` from `0.0`). -/
inductive PyFloat where
  | finite : ℚ → PyFloat
  | inf : PyFloat
  | negInf : PyFloat
  | nan : PyFloat
deriving DecidableEq, Repr

/-- Whether a float is finite. -/
def PyFloat.isFinite : PyFloat → Bool
  | PyFloat.finite _ => true
  | _ => false

/-- Whether a float is NaN. -/
def PyFloat.isNan : PyFloat → Bool
  | PyFloat.nan => true
  | _ => false

/-- Whether a float is an infinity. -/
def PyFloat.isInfinite : PyFloat → Bool
  | PyFloat.inf => true
  | PyFloat.negInf => true
  | _ => false

/-- IEEE-754 negation. -/
def pfNeg : PyFloat → PyFloat
  | PyFloat.finite q => PyFloat.finite (-q)
  | PyFloat.inf => PyFloat.negInf
  | PyFloat.negInf => PyFloat.inf
  | PyFloat.nan => PyFloat.nan

/-- IEEE-754 addition (finite addition idealized as exact). -/
def pfAdd : PyFloat → PyFloat → PyFloat
  | PyFloat.nan, _ => PyFloat.nan
  | _, PyFloat.nan => PyFloat.nan
  | PyFloat.inf, PyFloat.negInf => PyFloat.nan
  | PyFloat.negInf, PyFloat.inf => PyFloat.nan
  | PyFloat.inf, _ => PyFloat.inf
  | _, PyFloat.inf => PyFloat.inf
  | PyFloat.negInf, _ => PyFloat.negInf
  | _, PyFloat.negInf => PyFloat.negInf
  | PyFloat.finite a, PyFloat.finite b => PyFloat.finite (a + b)

/-- IEEE-754 subtraction. -/
def pfSub (a b : PyFloat) : PyFloat := pfAdd a (pfNeg b)

/-- IEEE-754 multiplication (finite multiplication idealized as exact). -/
def pfMul : PyFloat → PyFloat → PyFloat
  | PyFloat.nan, _ => PyFloat.nan
  | _, PyFloat.nan => PyFloat.nan
  | PyFloat.finite a, PyFloat.finite b => PyFloat.finite (a * b)
  | PyFloat.inf, PyFloat.inf => PyFloat.inf
  | PyFloat.inf, PyFloat.negInf => PyFloat.negInf
  | PyFloat.negInf, PyFloat.inf => PyFloat.negInf
  | PyFloat.negInf, PyFloat.negInf => PyFloat.inf
  | PyFloat.inf, PyFloat.finite b =>
      if b = 0 then PyFloat.nan
      else if 0 < b then PyFloat.inf else PyFloat.negInf
  | PyFloat.negInf, PyFloat.finite b =>
      if b = 0 then PyFloat.nan
      else if 0 < b then PyFloat.negInf else PyFloat.inf
  | PyFloat.finite a, PyFloat.inf =>
      if a = 0 then PyFloat.nan
      else if 0 < a then PyFloat.inf else PyFloat.negInf
  | PyFloat.finite a, PyFloat.negInf =>
      if a = 0 then PyFloat.nan
      else if 0 < a then PyFloat.negInf else PyFloat.inf

/-- IEEE-754 division (finite division idealized as exact).  The
finite-by-zero branch is unreachable at every call site of this
development: `_safe_divide` guards `denom == 0` before dividing, and the
scaler replaces a zero scale by `1`; its value here is the NaN sentinel. -/
def pfDiv : PyFloat → PyFloat → PyFloat
  | PyFloat.nan, _ => PyFloat.nan
  | _, PyFloat.nan => PyFloat.nan
  | PyFloat.finite a, PyFloat.finite b =>
      if b = 0 then PyFloat.nan else PyFloat.finite (a / b)
  | PyFloat.inf, PyFloat.inf => PyFloat.nan
  | PyFloat.inf, PyFloat.negInf => PyFloat.nan
  | PyFloat.negInf, PyFloat.inf => PyFloat.nan
  | PyFloat.negInf, PyFloat.negInf => PyFloat.nan
  | PyFloat.finite _, PyFloat.inf => PyFloat.finite 0
  | PyFloat.finite _, PyFloat.negInf => PyFloat.finite 0
  | PyFloat.inf, PyFloat.finite b =>
      if b < 0 then PyFloat.negInf else PyFloat.inf
  | PyFloat.negInf, PyFloat.finite b =>
      if b < 0 then PyFloat.inf else PyFloat.negInf

instance : Neg PyFloat := ⟨pfNeg⟩

instance : Add PyFloat := ⟨pfAdd⟩

instance : Sub PyFloat := ⟨pfSub⟩

instance : Mul PyFloat := ⟨pfMul⟩

instance : Div PyFloat := ⟨pfDiv⟩

instance (n : Nat) : OfNat PyFloat n := ⟨PyFloat.finite (OfNat.ofNat n)⟩

instance : OfScientific PyFloat :=
  ⟨fun m e b => PyFloat.finite (OfScientific.ofScientific m e b)⟩

/-- A JSON-like Python value: `None`, booleans, floats, strings, objects
(association lists, first binding wins) and arrays. -/
inductive Value where
  | null : Value
  | bool : Bool → Value
  | num : PyFloat → Value
  | str : String → Value
  | obj : List (String × Value) → Value
  | arr : List Value → Value

/-- A Python dict decoded from JSON: an association list. -/
def Dict := List (String × Value)

/-- A raw property record as handed to `extract_features`: a dict, or
Python `None` (modelled by `none`). -/
def RawRecord := Option Dict

/-- `d.get(k)` on a Python dict: the stored value, or `None` when the key
is absent (modelled by `Value.null`, which is what Python's `None` is). -/
def dictGet (d : Dict) (k : String) : Value :=
  match d.find? (fun p => p.1 = k) with
  | some p => p.2
  | none => Value.null

/-- Python truthiness of a value (`bool(v)`; note `bool(nan)` and
`bool(inf)` are true, only the zero float is falsy). -/
def truthy : Value → Bool
  | Value.null => false
  | Value.bool b => b
  | Value.num pf => if pf = PyFloat.finite 0 then false else true
  | Value.str s => if s = "" then false else true
  | Value.obj o => if o.isEmpty then false else true
  | Value.arr a => if a.isEmpty then false else true

/-- Python exceptions that the embedded code can raise, together with
sklearn's errors:
* `attributeError`: `.get` called on a truthy non-dict value
  (`'int' object has no attribute 'get'` and friends);
* `notFittedError`: sklearn's uninitialized-state error from
  `check_is_fitted`;
* `valueError`: sklearn's input-validation error (a batch with zero
  samples, or input containing infinity). -/
inductive PyErr where
  | attributeError : PyErr
  | notFittedError : PyErr
  | valueError : PyErr
deriving DecidableEq, Repr

/-- `property_data.get(k) or {}` followed by `.get` accesses on the result,
as in `extract_features` lines 44 and 58: a falsy value (missing key,
`None`, `{}`, `0`, `""`, `False`, `[]`) degrades to the empty dict, a
truthy dict is used as-is, and a truthy non-dict value flows through the
`or` unchanged so that the subsequent `.get` raises `AttributeError`. -/
def getGroup (d : Dict) (k : String) : Except PyErr Dict :=
  match dictGet d k with
  | Value.obj o => Except.ok o
  | v => if truthy v then Except.error PyErr.attributeError else Except.ok []

/-- Decimal digits of a natural number, most significant first, computed
with an explicit fuel so the recursion is structural (any fuel above the
digit count gives the digits; `natDigits` supplies `n + 1`). -/
def natDigitsAux (fuel n : Nat) : List Char :=
  match fuel with
  | 0 => []
  | fuel + 1 =>
    if n < 10 then [Char.ofNat (48 + n)]
    else natDigitsAux fuel (n / 10) ++ [Char.ofNat (48 + n % 10)]

/-- Decimal digits of a natural number, most significant first
(used by the string renderings below). -/
def natDigits (n : Nat) : List Char := natDigitsAux (n + 1) n

/-- Rendering of a finite number for Python `str()` / string coercion.
Only determinism and non-emptiness of this rendering are relied upon by
the code paths under verification (no claim hashes or compares the text
of a numeric categorical value); the exact repr algorithm of CPython
floats is therefore abbreviated: integers render as `"n.0"`, other
rationals as `"p/q"`. -/
def pyNumRepr (q : ℚ) : String :=
  (if q < 0 then "-" else "") ++
    String.mk (natDigits q.num.natAbs) ++
    (if q.den = 1 then ".0" else "/" ++ String.mk (natDigits q.den))

/-- Python `str()` of a float: CPython renders the non-finite values as
`inf`, `-inf` and `nan`. -/
def pyFloatRepr : PyFloat → String
  | PyFloat.finite q => pyNumRepr q
  | PyFloat.inf => "inf"
  | PyFloat.negInf => "-inf"
  | PyFloat.nan => "nan"

/-- Python `str(value)`.  Container renderings are abbreviated (they are
non-empty, as in Python, and no claim evaluates them further). -/
def pyStr : Value → String
  | Value.null => "None"
  | Value.bool true => "True"
  | Value.bool false => "False"
  | Value.num pf => pyFloatRepr pf
  | Value.str s => s
  | Value.obj _ => "\x7b...\x7d"
  | Value.arr _ => "[...]"

/-- One character of a decimal float literal: a digit. -/
def isDigitChar (c : Char) : Bool := 48 ≤ c.toNat && c.toNat ≤ 57

/-- Value of a digit character. -/
def digitVal (c : Char) : Nat := c.toNat - 48

/-- The ASCII whitespace `float(str)` strips from both ends
(Python also strips some Unicode spaces, which no claim exercises). -/
def pyWhitespace (c : Char) : Bool :=
  c.toNat = 32 || c.toNat = 9 || c.toNat = 10 || c.toNat = 13 ||
    c.toNat = 11 || c.toNat = 12

/-- ASCII lowercasing (the `inf`/`Infinity`/`nan` spellings and the
exponent marker are case-insensitive in `float(str)`). -/
def toLowerChar (c : Char) : Char :=
  if 65 ≤ c.toNat && c.toNat ≤ 90 then Char.ofNat (c.toNat + 32) else c

/-- Continuation of a Python digit-part `digit (['_'] digit)*`:
accumulates value and digit count; an underscore must sit between two
digits. -/
def digitPartAux : List Char → Nat × Nat → Option (Nat × Nat)
  | [], acc => some acc
  | '_' :: c :: cs, acc =>
      if isDigitChar c then digitPartAux cs (10 * acc.1 + digitVal c, acc.2 + 1)
      else none
  | ['_'], _ => none
  | c :: cs, acc =>
      if isDigitChar c then digitPartAux cs (10 * acc.1 + digitVal c, acc.2 + 1)
      else none

/-- A Python digit-part `digit (['_'] digit)*`: its value and its digit
count, or `none` when the text is not of that shape. -/
def parseDigitPart (cs : List Char) : Option (Nat × Nat) :=
  match cs with
  | c :: rest =>
      if isDigitChar c then digitPartAux rest (digitVal c, 1) else none
  | [] => none

/-- The mantissa of a float literal, `[digitpart] ['.' [digitpart]]` with
at least one digit, as an exact rational. -/
def parseMantissa (cs : List Char) : Option ℚ :=
  let ip := cs.takeWhile (fun c => c ≠ '.')
  match cs.dropWhile (fun c => c ≠ '.') with
  | [] => (parseDigitPart ip).map (fun p => (p.1 : ℚ))
  | _ :: fracs =>
      if fracs.any (fun c => c = '.') then none
      else if ip.isEmpty then
        (parseDigitPart fracs).map (fun p => (p.1 : ℚ) / (10 : ℚ) ^ p.2)
      else if fracs.isEmpty then
        (parseDigitPart ip).map (fun p => (p.1 : ℚ))
      else
        match parseDigitPart ip, parseDigitPart fracs with
        | some p, some f => some ((p.1 : ℚ) + (f.1 : ℚ) / (10 : ℚ) ^ f.2)
        | _, _ => none

/-- A float literal `mantissa [e [sign] digitpart]` (already lowercased),
as an exact rational. -/
def parseFloatNumber (cs : List Char) : Option ℚ :=
  let mant := cs.takeWhile (fun c => c ≠ 'e')
  match cs.dropWhile (fun c => c ≠ 'e') with
  | [] => parseMantissa mant
  | _ :: ecs =>
      let expOf : List Char → Option ℤ := fun ds =>
        match ds with
        | '-' :: ds => (parseDigitPart ds).map (fun p => -(p.1 : ℤ))
        | '+' :: ds => (parseDigitPart ds).map (fun p => (p.1 : ℤ))
        | ds => (parseDigitPart ds).map (fun p => (p.1 : ℤ))
      match parseMantissa mant, expOf ecs with
      | some m, some e => some (m * (10 : ℚ) ^ e)
      | _, _ => none

/-- IEEE-754 double-precision overflow threshold: under round-to-nearest,
a decimal value of magnitude at least `2^1024 - 2^970` converts to
infinity — this is how `float("1e999")` yields `inf` in CPython. -/
def overflowBound : ℚ := 2 ^ 1024 - 2 ^ 970

/-- Python `float(s)` on a string: optional surrounding whitespace,
optional sign, then the case-insensitive spellings `inf`/`infinity`/
`nan` or a decimal literal with optional fraction, underscores between
digits, and optional exponent; decimal values beyond the double range
overflow to the infinities.  (Finite conversion is idealized as exact;
gradual underflow to `0.0` thus keeps tiny values finite, which no claim
distinguishes.) -/
def pyFloatOfString (s : String) : Option PyFloat :=
  let trimmed :=
    ((s.data.dropWhile pyWhitespace).reverse.dropWhile pyWhitespace).reverse
  let signed : Bool × List Char :=
    match trimmed with
    | '-' :: rest => (true, rest)
    | '+' :: rest => (false, rest)
    | rest => (false, rest)
  let neg := signed.1
  let low := signed.2.map toLowerChar
  if low = "inf".data ∨ low = "infinity".data then
    some (if neg then PyFloat.negInf else PyFloat.inf)
  else if low = "nan".data then some PyFloat.nan
  else
    match parseFloatNumber low with
    | none => none
    | some v =>
        let v := if neg then -v else v
        if overflowBound ≤ v then some PyFloat.inf
        else if v ≤ -overflowBound then some PyFloat.negInf
        else some (PyFloat.finite v)

/-- `PropertyVectorizer._safe_get_number`: convert a value to a float,
returning `default` for `None` and for values `float()` rejects.
`float(True) = 1.0`, `float(False) = 0.0`; dicts and lists raise
`TypeError`, which the source catches and turns into the default.
Strings are converted with `float(str)` — in particular `"inf"`,
`"nan"` and overflowing literals convert successfully, to non-finite
floats, not to the default. -/
def safeGetNumber (value : Value) (default : PyFloat) : PyFloat :=
  match value with
  | Value.null => default
  | Value.bool b => if b then 1 else 0
  | Value.num pf => pf
  | Value.str s =>
      match pyFloatOfString s with
      | some pf => pf
      | none => default
  | Value.obj _ => default
  | Value.arr _ => default

/-- `PropertyVectorizer._safe_get_string`: `default` for `None` and for
the empty string (the only values equal to `''`), otherwise `str(value)`. -/
def safeGetString (value : Value) (default : String) : String :=
  match value with
  | Value.null => default
  | Value.str s => if s = "" then default else s
  | v => pyStr v

/-- `x is True` in Python: identity with the boolean `True`. -/
def isPyTrue : Value → Bool
  | Value.bool true => true
  | _ => false

/-- A feature value held in the features dict built by `extract_features`:
a float or a string. -/
inductive FeatVal where
  | num : PyFloat → FeatVal
  | str : String → FeatVal
deriving DecidableEq, Repr

/-- The features mapping produced by `extract_features` (a Python dict
built key by key; insertion order is the source order). -/
def Features := List (String × FeatVal)

/-- `features[k]` on a features dict (all keys looked up by the encoder
are present by construction; the default is never reached on the
encoder's lookups). -/
def featGet (fs : Features) (k : String) : FeatVal :=
  match fs.find? (fun p => p.1 = k) with
  | some p => p.2
  | none => FeatVal.num 0

/-- Numeric content of a feature value (the encoder only reads numeric
features through this). -/
def featNum : FeatVal → PyFloat
  | FeatVal.num pf => pf
  | FeatVal.str _ => 0

/-- String content of a feature value (the encoder only reads categorical
features through this). -/
def featStr : FeatVal → String
  | FeatVal.str s => s
  | FeatVal.num pf => pyFloatRepr pf

/-- `PropertyVectorizer.numerical_fields`, in source order. -/
def numericalFields : List String :=
  ["rent", "deposit", "maintenanceAmount", "noOfBalconies",
   "noOfBedrooms", "noOfBathrooms", "sbua", "floorNumber",
   "totalFloors", "carpetArea", "plotArea", "lat", "lng"]

/-- `PropertyVectorizer.categorical_fields`, in source order. -/
def categoricalFields : List String :=
  ["propertyType", "source", "assetType", "communityType",
   "facing", "apartmentType", "stage", "zone", "listingType",
   "furnishing", "status", "ageOfTheBuilding", "referredFloorNumber"]

/-- The full key set of the features dict, in the order
`extract_features` inserts them. -/
def predeclaredKeys : List String :=
  numericalFields ++ categoricalFields ++ ["readyToMove"]

/-- `PropertyVectorizer.extract_features`: one raw record (or `None`,
treated as `{}`) to a features dict.  The nested `rentalInfo` and
`_geoloc` groups are read through `record.get(k) or {}`; a truthy
non-dict group value makes the subsequent `.get` raise `AttributeError`,
which is the only way this function can fail. -/
def extractFeatures (r : RawRecord) : Except PyErr Features :=
  let d := r.getD []
  match getGroup d "rentalInfo", getGroup d "_geoloc" with
  | Except.error e, _ => Except.error e
  | Except.ok _, Except.error e => Except.error e
  | Except.ok ri, Except.ok gl => Except.ok
    [ ("rent", FeatVal.num (safeGetNumber (dictGet ri "rent") 0)),
      ("deposit", FeatVal.num (safeGetNumber (dictGet ri "deposit") 0)),
      ("maintenanceAmount", FeatVal.num (safeGetNumber (dictGet ri "maintenanceAmount") 0)),
      ("noOfBalconies", FeatVal.num (safeGetNumber (dictGet d "noOfBalconies") 0)),
      ("noOfBedrooms", FeatVal.num (safeGetNumber (dictGet d "noOfBedrooms") 0)),
      ("noOfBathrooms", FeatVal.num (safeGetNumber (dictGet d "noOfBathrooms") 0)),
      ("sbua", FeatVal.num (safeGetNumber (dictGet d "sbua") 0)),
      ("floorNumber", FeatVal.num (safeGetNumber (dictGet d "floorNumber") 0)),
      ("totalFloors", FeatVal.num (safeGetNumber (dictGet d "totalFloors") 0)),
      ("carpetArea", FeatVal.num (safeGetNumber (dictGet d "carpetArea") 0)),
      ("plotArea", FeatVal.num (safeGetNumber (dictGet d "plotArea") 0)),
      ("lat", FeatVal.num (safeGetNumber (dictGet gl "lat") 0)),
      ("lng", FeatVal.num (safeGetNumber (dictGet gl "lng") 0)),
      ("propertyType", FeatVal.str (safeGetString (dictGet d "propertyType") "unknown")),
      ("source", FeatVal.str (safeGetString (dictGet d "source") "unknown")),
      ("assetType", FeatVal.str (safeGetString (dictGet d "assetType") "unknown")),
      ("communityType", FeatVal.str (safeGetString (dictGet d "communityType") "unknown")),
      ("facing", FeatVal.str (safeGetString (dictGet d "facing") "unknown")),
      ("apartmentType", FeatVal.str (safeGetString (dictGet d "apartmentType") "unknown")),
      ("stage", FeatVal.str (safeGetString (dictGet d "stage") "unknown")),
      ("zone", FeatVal.str (safeGetString (dictGet d "zone") "unknown")),
      ("listingType", FeatVal.str (safeGetString (dictGet d "listingType") "unknown")),
      ("furnishing", FeatVal.str (safeGetString (dictGet d "furnishing") "unknown")),
      ("status", FeatVal.str (safeGetString (dictGet d "status") "unknown")),
      ("ageOfTheBuilding", FeatVal.str (safeGetString (dictGet d "ageOfTheBuilding") "unknown")),
      ("referredFloorNumber", FeatVal.str (safeGetString (dictGet d "referredFloorNumber") "unknown")),
      ("readyToMove", FeatVal.num (if isPyTrue (dictGet d "readyToMove") then 1 else 0)) ]

/-- UTF-8 encoding of one character (`str.encode()` operates on UTF-8). -/
def utf8Bytes (c : Char) : List Nat :=
  let n := c.toNat
  if n < 128 then [n]
  else if n < 2048 then [192 + n / 64, 128 + n % 64]
  else if n < 65536 then [224 + n / 4096, 128 + (n / 64) % 64, 128 + n % 64]
  else [240 + n / 262144, 128 + (n / 4096) % 64, 128 + (n / 64) % 64, 128 + n % 64]

/-- `s.encode()`: the UTF-8 bytes of a string. -/
def strBytes (s : String) : List Nat := s.data.flatMap utf8Bytes

/-- `2 ^ 32`, the modulus of MD5's 32-bit arithmetic. -/
def m32 : Nat := 4294967296

/-- 32-bit addition. -/
def add32 (a b : Nat) : Nat := (a + b) % m32

/-- 32-bit left rotation. -/
def rotl32 (x s : Nat) : Nat := ((x <<< s) ||| (x >>> (32 - s))) % m32

/-- 32-bit complement. -/
def not32 (x : Nat) : Nat := x ^^^ (m32 - 1)

/-- The MD5 sine-derived constant table `T[1..64]` of RFC 1321. -/
def md5K : List Nat :=
  [0xd76aa478, 0xe8c7b756, 0x242070db, 0xc1bdceee,
   0xf57c0faf, 0x4787c62a, 0xa8304613, 0xfd469501,
   0x698098d8, 0x8b44f7af, 0xffff5bb1, 0x895cd7be,
   0x6b901122, 0xfd987193, 0xa679438e, 0x49b40821,
   0xf61e2562, 0xc040b340, 0x265e5a51, 0xe9b6c7aa,
   0xd62f105d, 0x02441453, 0xd8a1e681, 0xe7d3fbc8,
   0x21e1cde6, 0xc33707d6, 0xf4d50d87, 0x455a14ed,
   0xa9e3e905, 0xfcefa3f8, 0x676f02d9, 0x8d2a4c8a,
   0xfffa3942, 0x8771f681, 0x6d9d6122, 0xfde5380c,
   0xa4beea44, 0x4bdecfa9, 0xf6bb4b60, 0xbebfbc70,
   0x289b7ec6, 0xeaa127fa, 0xd4ef3085, 0x04881d05,
   0xd9d4d039, 0xe6db99e5, 0x1fa27cf8, 0xc4ac5665,
   0xf4292244, 0x432aff97, 0xab9423a7, 0xfc93a039,
   0x655b59c3, 0x8f0ccc92, 0xffeff47d, 0x85845dd1,
   0x6fa87e4f, 0xfe2ce6e0, 0xa3014314, 0x4e0811a1,
   0xf7537e82, 0xbd3af235, 0x2ad7d2bb, 0xeb86d391]

/-- The MD5 per-round left-rotation amounts. -/
def md5S : List Nat :=
  [7, 12, 17, 22, 7, 12, 17, 22, 7, 12, 17, 22, 7, 12, 17, 22,
   5, 9, 14, 20, 5, 9, 14, 20, 5, 9, 14, 20, 5, 9, 14, 20,
   4, 11, 16, 23, 4, 11, 16, 23, 4, 11, 16, 23, 4, 11, 16, 23,
   6, 10, 15, 21, 6, 10, 15, 21, 6, 10, 15, 21, 6, 10, 15, 21]

/-- The MD5 round function F/G/H/I, selected by the step index. -/
def md5F (i b c d : Nat) : Nat :=
  if i < 16 then (b &&& c) ||| (not32 b &&& d)
  else if i < 32 then (d &&& b) ||| (not32 d &&& c)
  else if i < 48 then b ^^^ c ^^^ d
  else c ^^^ (b ||| not32 d)

/-- The MD5 message-word schedule. -/
def md5G (i : Nat) : Nat :=
  if i < 16 then i
  else if i < 32 then (5 * i + 1) % 16
  else if i < 48 then (3 * i + 5) % 16
  else (7 * i) % 16

/-- MD5 padding: append `0x80`, zero bytes to 56 mod 64, then the bit
length as 8 little-endian bytes. -/
def md5Pad (msg : List Nat) : List Nat :=
  let len := msg.length
  let zeros := (120 - ((len + 1) % 64)) % 64
  let bits := (8 * len) % (2 ^ 64)
  msg ++ [128] ++ List.replicate zeros 0 ++
    (List.range 8).map (fun i => (bits >>> (8 * i)) % 256)

/-- The 64-byte chunks of a padded message, by block index (the padded
length is a multiple of 64). -/
def chunks64 (l : List Nat) : List (List Nat) :=
  (List.range (l.length / 64)).map (fun i => (l.drop (64 * i)).take 64)

/-- The 16 little-endian 32-bit words of a 64-byte chunk. -/
def chunkWords (chunk : List Nat) : List Nat :=
  (List.range 16).map (fun j =>
    chunk.getD (4 * j) 0 + 256 * chunk.getD (4 * j + 1) 0 +
      65536 * chunk.getD (4 * j + 2) 0 + 16777216 * chunk.getD (4 * j + 3) 0)

/-- One MD5 step on the state `(a, b, c, d)`. -/
def md5Step (w : List Nat) (st : Nat × Nat × Nat × Nat) (i : Nat) :
    Nat × Nat × Nat × Nat :=
  let a := st.1
  let b := st.2.1
  let c := st.2.2.1
  let d := st.2.2.2
  let f := md5F i b c d
  let tmp := add32 (add32 (add32 a f) (md5K.getD i 0)) (w.getD (md5G i) 0)
  (d, add32 b (rotl32 tmp (md5S.getD i 0)), b, c)

/-- The MD5 compression function for one 64-byte chunk. -/
def md5Chunk (st : Nat × Nat × Nat × Nat) (chunk : List Nat) :
    Nat × Nat × Nat × Nat :=
  let w := chunkWords chunk
  let r := (List.range 64).foldl (md5Step w) st
  (add32 st.1 r.1, add32 st.2.1 r.2.1, add32 st.2.2.1 r.2.2.1,
    add32 st.2.2.2 r.2.2.2)

/-- A 32-bit word as 4 little-endian bytes. -/
def wordToBytesLE (w : Nat) : List Nat :=
  [w % 256, (w >>> 8) % 256, (w >>> 16) % 256, (w >>> 24) % 256]

/-- `hashlib.md5(msg).digest()`: the 16 digest bytes of a byte message. -/
def md5Bytes (msg : List Nat) : List Nat :=
  let st := (chunks64 (md5Pad msg)).foldl md5Chunk
    (0x67452301, 0xefcdab89, 0x98badcfe, 0x10325476)
  wordToBytesLE st.1 ++ wordToBytesLE st.2.1 ++ wordToBytesLE st.2.2.1 ++
    wordToBytesLE st.2.2.2

/-- A nibble as a lowercase hexadecimal character. -/
def hexChar (n : Nat) : Char :=
  if n < 10 then Char.ofNat (48 + n) else Char.ofNat (87 + n)

/-- `hashlib.md5(s.encode()).hexdigest()`: the digest as lowercase hex. -/
def md5HexDigest (s : String) : String :=
  String.mk ((md5Bytes (strBytes s)).flatMap
    (fun b => [hexChar (b / 16 % 16), hexChar (b % 16)]))

/-- Value of a lowercase hexadecimal digit character (the alphabet
`hexdigest` produces; `int(h, 16)` is only applied to such text here). -/
def hexCharVal (c : Char) : Nat :=
  if 97 ≤ c.toNat then c.toNat - 87 else c.toNat - 48

/-- `int(h, 16)` on a lowercase hex string. -/
def hexToNat (s : String) : Nat :=
  s.data.foldl (fun acc c => 16 * acc + hexCharVal c) 0

/-- Identifier derivation for string ids in
`update_all_properties_from_json` (routes, lines 40-42):
`int(hashlib.md5(prop_id.encode()).hexdigest()[:8], 16)`.
(`h[:8]` on a Python string is its first 8 characters, modelled on the
character list of the hex digest.) -/
def derivePropertyId (s : String) : Nat :=
  hexToNat (String.mk ((md5HexDigest s).data.take 8))

/-- `PropertyVectorizer._safe_divide`: coerce both operands with
`_safe_get_number`, return `default` when the denominator equals the
float `0` (Python `==`; infinities and NaN are not equal to `0`), else
the float quotient.  The guard removes the only `ZeroDivisionError`
hazard, so the function never raises. -/
def safeDivide (numerator denominator : Value) (default : PyFloat) : PyFloat :=
  let num := safeGetNumber numerator 0
  let denom := safeGetNumber denominator 0
  if denom = 0 then default else num / denom

/-- `PropertyVectorizer._categorical_to_embeddings`: hash the (string)
value with MD5 and map each of the first `numDims` digest bytes (cycling
through the 16 bytes via `i % len`) linearly to `[-1, 1]` by
`byte / 127.5 - 1.0`.  The result is always finite; `buildVector`
injects it into the float-valued feature vector. -/
def categoricalToEmbeddings (value : String) (numDims : Nat) : List ℚ :=
  let hashBytes := md5Bytes (strBytes value)
  (List.range numDims).map (fun i =>
    ((hashBytes.getD (i % hashBytes.length) 0 : ℚ) / 127.5) - 1)

/-- Round half to even on rationals (CPython float formatting rounds to
nearest with ties to even). -/
def roundHalfEven (q : ℚ) : ℤ :=
  let fl := ⌊q⌋
  let fr := q - fl
  if fr < 1 / 2 then fl
  else if fr > 1 / 2 then fl + 1
  else if fl % 2 = 0 then fl else fl + 1

/-- Zero-padded decimal rendering of a natural number to 4 digits. -/
def pad4 (n : Nat) : String :=
  let ds := natDigits n
  String.mk (List.replicate (4 - ds.length) '0' ++ ds)

/-- Python `f"{x:.4f}"` for a finite value: rounded to 4 decimal places,
rendered with exactly 4 fractional digits.  (Negative zero renders
without the sign here; no claim formats a negative coordinate.) -/
def fixed4Q (q : ℚ) : String :=
  let n := roundHalfEven (q * 10000)
  (if n < 0 then "-" else "") ++
    String.mk (natDigits (n.natAbs / 10000)) ++ "." ++ pad4 (n.natAbs % 10000)

/-- Python `f"{x:.4f}"` on a float: CPython renders the non-finite
values as `inf`, `-inf` and `nan` under this format too. -/
def fixed4 : PyFloat → String
  | PyFloat.finite q => fixed4Q q
  | PyFloat.inf => "inf"
  | PyFloat.negInf => "-inf"
  | PyFloat.nan => "nan"

/-- The canonical coordinate string `f"{lat:.4f},{lng:.4f}"` hashed for
the trailing location features. -/
def latLngStr (lat lng : PyFloat) : String := fixed4 lat ++ "," ++ fixed4 lng

/-- The derived ratio features appended when the running vector is still
short of the target width (fit_transform lines 141-170, transform lines
215-236): rent/sbua, rent/bedrooms, deposit/rent, floor/totalFloors,
bathrooms/bedrooms, carpet/sbua, plot/sbua, then a 3-dimensional hash
embedding of the coordinate string. -/
def derivedFeats (f : Features) : List PyFloat :=
  let rent := featNum (featGet f "rent")
  let sbua := featNum (featGet f "sbua")
  let bedrooms := featNum (featGet f "noOfBedrooms")
  [safeDivide (Value.num rent) (Value.num sbua) 0,
   safeDivide (Value.num rent) (Value.num bedrooms) 0,
   safeDivide (Value.num (featNum (featGet f "deposit"))) (Value.num rent) 0,
   safeDivide (Value.num (featNum (featGet f "floorNumber")))
     (Value.num (featNum (featGet f "totalFloors"))) 0,
   safeDivide (Value.num (featNum (featGet f "noOfBathrooms")))
     (Value.num bedrooms) 0,
   safeDivide (Value.num (featNum (featGet f "carpetArea"))) (Value.num sbua) 0,
   safeDivide (Value.num (featNum (featGet f "plotArea"))) (Value.num sbua) 0]
  ++ (categoricalToEmbeddings
      (latLngStr (featNum (featGet f "lat")) (featNum (featGet f "lng"))) 3).map
      PyFloat.finite

/-- The unconditional final truncate-or-zero-pad step
(fit_transform lines 172-176, transform lines 238-242). -/
def padOrTruncate (target : Nat) (v : List PyFloat) : List PyFloat :=
  if v.length < target then v ++ List.replicate (target - v.length) 0
  else if v.length > target then v.take target
  else v

/-- The per-record raw (pre-scaling) vector construction shared verbatim
by `fit_transform` and `transform`: 13 numeric passthrough features, 13
categorical 8-dimensional hash embeddings, the boolean feature, then —
only if the running length is still below the target — the derived
features, and finally the unconditional pad-or-truncate step. -/
def buildVector (target : Nat) (f : Features) : List PyFloat :=
  let nums := numericalFields.map (fun k => featNum (featGet f k))
  let cats := categoricalFields.flatMap
    (fun k => (categoricalToEmbeddings (featStr (featGet f k)) 8).map
      PyFloat.finite)
  let base := nums ++ cats ++ [featNum (featGet f "readyToMove")]
  let v := if base.length < target then base ++ derivedFeats f else base
  padOrTruncate target v

/-- The raw (pre-scaling) vectors of a batch: extraction followed by
per-record vector construction, i.e. `fit_transform` up to but excluding
the scaler (lines 119-178). -/
def rawVectors (target : Nat) (batch : List RawRecord) :
    Except PyErr (List (List PyFloat)) :=
  (batch.mapM extractFeatures).map (fun feats => feats.map (buildVector target))

/-- The state sklearn's `StandardScaler` stores when fitted: per-column
means and scales. -/
structure ScalerState where
  mean : List PyFloat
  scale : List PyFloat
deriving DecidableEq, Repr

/-- Number of columns of a non-ragged row-major matrix. -/
def ncols (rows : List (List PyFloat)) : Nat := (rows.headD []).length

/-- Column `j` of a row-major matrix. -/
def colVals (rows : List (List PyFloat)) (j : Nat) : List PyFloat :=
  rows.map (fun r => r.getD j 0)

/-- The finite entries of a column (after the scaler's input validation
the non-finite entries are exactly the NaNs, which numpy's
nan-statistics treat as missing). -/
def finiteVals (l : List PyFloat) : List ℚ :=
  l.filterMap (fun pf =>
    match pf with
    | PyFloat.finite q => some q
    | _ => none)

/-- `np.nanmean` of a column: the mean of the non-NaN entries; an
all-NaN column yields NaN. -/
def nanmean (l : List PyFloat) : PyFloat :=
  let fs := finiteVals l
  if fs.isEmpty then PyFloat.nan
  else PyFloat.finite (fs.sum / (fs.length : ℚ))

/-- `np.nanvar` (population variance, `ddof = 0`, as `StandardScaler`
uses) of a column: the variance of the non-NaN entries; an all-NaN
column yields NaN. -/
def nanvar (l : List PyFloat) : PyFloat :=
  let fs := finiteVals l
  if fs.isEmpty then PyFloat.nan
  else PyFloat.finite
    ((fs.map (fun x => (x - fs.sum / (fs.length : ℚ)) ^ 2)).sum /
      (fs.length : ℚ))

/-- `np.sqrt` on a float, parametric in the square root `sqrtQ` for the
finite case (variances are non-negative, so the negative branch of
numpy's sqrt is unreachable here); `sqrt(nan) = nan`. -/
def pfSqrt (sqrtQ : ℚ → ℚ) : PyFloat → PyFloat
  | PyFloat.finite q => PyFloat.finite (sqrtQ q)
  | PyFloat.inf => PyFloat.inf
  | PyFloat.negInf => PyFloat.nan
  | PyFloat.nan => PyFloat.nan

/-- `StandardScaler.fit`: per-column nan-aware mean, and scale
`_handle_zeros_in_scale(sqrt(var))` — the square root of the variance
with exact zeros replaced by `1` (a NaN scale is not zero and is kept). -/
def scalerFit (sqrtQ : ℚ → ℚ) (rows : List (List PyFloat)) : ScalerState :=
  let n := ncols rows
  { mean := (List.range n).map (fun j => nanmean (colVals rows j)),
    scale := (List.range n).map (fun j =>
      let s := pfSqrt sqrtQ (nanvar (colVals rows j))
      if s = PyFloat.finite 0 then PyFloat.finite 1 else s) }

/-- Elementwise `(x - mean) / scale` on one row (the shapes agree at
every reachable call site, which the length checks below enforce). -/
def scaleRow (mean scale row : List PyFloat) : List PyFloat :=
  (List.range row.length).map (fun j =>
    (row.getD j 0 - mean.getD j 0) / scale.getD j 0)

/-- Whether a batch of rows contains an infinity — what sklearn's
`check_array(force_all_finite='allow-nan')` rejects with a validation
`ValueError` (NaN entries pass). -/
def hasInfinity (rows : List (List PyFloat)) : Bool :=
  rows.any (fun r => r.any (fun pf => PyFloat.isInfinite pf))

/-- `PropertyVectorizer.fit_transform`: extract features, build the raw
vectors, then `scaler.fit_transform` — which first validates the input
(a zero-sample batch, or one containing an infinity, is rejected with
sklearn's `ValueError`; NaN passes), fits the normalization state and
rescales every row.  Returns the vectors together with the fitted state
the instance stores. -/
def fitTransform (sqrtQ : ℚ → ℚ) (target : Nat) (batch : List RawRecord) :
    Except PyErr (List (List PyFloat) × ScalerState) :=
  match batch.mapM extractFeatures with
  | Except.error e => Except.error e
  | Except.ok feats =>
    let rows := feats.map (buildVector target)
    if rows.isEmpty then Except.error PyErr.valueError
    else if hasInfinity rows then Except.error PyErr.valueError
    else
      let st := scalerFit sqrtQ rows
      Except.ok (rows.map (scaleRow st.mean st.scale), st)

/-- `PropertyVectorizer.transform`: extract features, build the raw
vectors, then `scaler.transform` — which first checks fitted state
(`NotFittedError` on a fresh instance, before any input validation),
then validates the input (`ValueError` on a zero-sample batch, an
infinity, or a feature-count mismatch; NaN passes) and rescales with
the stored parameters. -/
def transformV (target : Nat) (st : Option ScalerState)
    (batch : List RawRecord) : Except PyErr (List (List PyFloat)) :=
  match batch.mapM extractFeatures with
  | Except.error e => Except.error e
  | Except.ok feats =>
    let rows := feats.map (buildVector target)
    match st with
    | none => Except.error PyErr.notFittedError
    | some s =>
        if rows.isEmpty then Except.error PyErr.valueError
        else if hasInfinity rows then Except.error PyErr.valueError
        else if rows.all (fun r => r.length = s.mean.length) then
          Except.ok (rows.map (scaleRow s.mean s.scale))
        else Except.error PyErr.valueError

/-- The vector computed by the `/properties/vectorize` endpoint
(routes, lines 110-112): a fresh `PropertyVectorizer()` with the default
`target_dim = 128`, `fit_transform` on the one-element batch holding the
request's property payload, and the first resulting vector. -/
def vectorizeEndpointVector (sqrtQ : ℚ → ℚ) (payload : Dict) :
    Except PyErr (List PyFloat) :=
  (fitTransform sqrtQ 128 [some payload]).map (fun p => p.1.getD 0 [])

/-- The records on which `extract_features` does not raise: both nested
group fields are absent, falsy, or dict-valued. -/
def GoodGroups (r : RawRecord) : Prop :=
  (getGroup (r.getD []) "rentalInfo").isOk ∧
    (getGroup (r.getD []) "_geoloc").isOk

/-- The dict `extract_features` reads the rental fields from
(`record.get("rentalInfo") or {}`), on records where that expression is
a dict. -/
def rentalGroup (r : RawRecord) : Dict :=
  (getGroup (r.getD []) "rentalInfo").toOption.getD []

/-- The dict `extract_features` reads the coordinates from
(`record.get("_geoloc") or {}`), on records where that expression is a
dict. -/
def geoGroup (r : RawRecord) : Dict :=
  (getGroup (r.getD []) "_geoloc").toOption.getD []

/-- The raw value each numeric feature is converted from: the rental
fields come from the `rentalInfo` group, the coordinates from the
`_geoloc` group, everything else from the record itself. -/
def rawNumericSource (r : RawRecord) (k : String) : Value :=
  match k with
  | "rent" => dictGet (rentalGroup r) k
  | "deposit" => dictGet (rentalGroup r) k
  | "maintenanceAmount" => dictGet (rentalGroup r) k
  | "lat" => dictGet (geoGroup r) k
  | "lng" => dictGet (geoGroup r) k
  | _ => dictGet (r.getD []) k

/-- The concrete record of end-to-end scenario 1 of the spec:
`{"noOfBedrooms": 3, "sbua": 1000, "_geoloc": {"lat": 12.9, "lng": 77.6},
"pricing": {"totalAskPrice": 5000000}}`. -/
def c2Record : RawRecord :=
  some
    [("noOfBedrooms", Value.num 3), ("sbua", Value.num 1000),
     ("_geoloc", Value.obj [("lat", Value.num 12.9), ("lng", Value.num 77.6)]),
     ("pricing", Value.obj [("totalAskPrice", Value.num 5000000)])]

/-- A record whose `rentalInfo` field holds a truthy non-dict value:
`{"rentalInfo": 5}`.  On it, `extract_features` evaluates
`(5).get("rent")` and raises `AttributeError`. -/
def badGroupRecord : RawRecord := some [("rentalInfo", Value.num 5)]

/-- The record `{"sbua": "inf"}`: `float("inf")` succeeds, so extraction
returns a mapping whose `sbua` feature is positive infinity. -/
def sbuaInfRecord : RawRecord := some [("sbua", Value.str "inf")]

/-- The record `{"sbua": "nan"}`: `float("nan")` succeeds, so extraction
returns a mapping whose `sbua` feature is NaN. -/
def sbuaNanRecord : RawRecord := some [("sbua", Value.str "nan")]

/-- A concrete square-root stand-in used by the witness instantiations
(the theorems hold for every `sqrtQ`). -/
def sqrtOne : ℚ → ℚ := fun _ => 1

/-- A record carrying the truthy non-boolean number `1` in
`readyToMove`: `{"readyToMove": 1}` (in Python, `1 is True` is false). -/
def readyNumRecord : RawRecord := some [("readyToMove", Value.num 1)]

/-- The features of a record on which extraction succeeds (used by the
concrete witness instantiations). -/
def featuresOf (r : RawRecord) : Features :=
  (extractFeatures r).toOption.getD []

theorem natDigits_ne_nil (n : Nat) : natDigits n ≠ [] := by
  unfold natDigits natDigitsAux
  split <;> simp

theorem pyNumRepr_ne_empty (q : ℚ) : pyNumRepr q ≠ "" := by
  intro h
  have h2 : (pyNumRepr q).data = [] := by rw [h]
  unfold pyNumRepr at h2
  rw [String.data_append, String.data_append] at h2
  rcases List.append_eq_nil.mp h2 with ⟨h3, _⟩
  rcases List.append_eq_nil.mp h3 with ⟨_, h5⟩
  exact natDigits_ne_nil _ h5

theorem pyFloatRepr_ne_empty (pf : PyFloat) : pyFloatRepr pf ≠ "" := by
  cases pf with
  | finite q => exact pyNumRepr_ne_empty q
  | inf => simp [pyFloatRepr]
  | negInf => simp [pyFloatRepr]
  | nan => simp [pyFloatRepr]

theorem safeGetString_ne_empty (v : Value) (d : String) (hd : d ≠ "") :
    safeGetString v d ≠ "" := by
  cases v with
  | null => simpa [safeGetString] using hd
  | str s =>
      by_cases hs : s = "" <;> simp [safeGetString, hs] <;> assumption
  | bool b => cases b <;> simp [safeGetString, pyStr]
  | num pf => simpa [safeGetString, pyStr] using pyFloatRepr_ne_empty pf
  | obj o => simp [safeGetString, pyStr]
  | arr a => simp [safeGetString, pyStr]

theorem getD_range_map {α : Type} (f : Nat → α) (n j : Nat) (d : α)
    (h : j < n) : (((List.range n).map f).getD j d) = f j := by
  rw [List.getD_eq_getElem?_getD, List.getElem?_map, List.getElem?_range h]
  rfl

theorem getD_mem_or_default {α : Type} (l : List α) (i : Nat) (d : α) :
    l.getD i d ∈ l ∨ l.getD i d = d := by
  by_cases h : i < l.length
  · left
    rw [List.getD_eq_getElem?_getD, List.getElem?_eq_getElem h]
    exact List.getElem_mem h
  · right
    exact List.getD_eq_default _ _ (by omega)

theorem padOrTruncate_length (t : Nat) (v : List PyFloat) :
    (padOrTruncate t v).length = t := by
  unfold padOrTruncate
  split
  · simp
    omega
  · split
    · simp
      omega
    · omega

theorem buildVector_length (t : Nat) (f : Features) :
    (buildVector t f).length = t :=
  padOrTruncate_length t _

theorem scaleRow_length (mean scale row : List PyFloat) :
    (scaleRow mean scale row).length = row.length := by
  simp [scaleRow]

theorem wordToBytesLE_lt (w : Nat) (b : Nat) (hb : b ∈ wordToBytesLE w) :
    b < 256 := by
  simp [wordToBytesLE] at hb
  rcases hb with h | h | h | h <;> subst h <;> exact Nat.mod_lt _ (by norm_num)

theorem md5Bytes_lt (msg : List Nat) (b : Nat) (hb : b ∈ md5Bytes msg) :
    b < 256 := by
  unfold md5Bytes at hb
  simp only [List.mem_append] at hb
  rcases hb with ((h | h) | h) | h <;> exact wordToBytesLE_lt _ _ h

/-- Claim C4: for every pair of inputs, `_safe_divide` with a
zero-valued denominator returns the default `0`; and in every case the
result is either that default or the float quotient by a denominator
that does not equal `0` — the `denom == 0` guard removes the division-
by-zero hazard, so the operation never raises and a zero denominator
never injects NaN or Infinity into the vector. -/
theorem safeDivide_zero_denominator (numerator denominator : Value) :
    (safeGetNumber denominator 0 = 0 → safeDivide numerator denominator 0 = 0) ∧
      (safeDivide numerator denominator 0 = 0 ∨
        (safeGetNumber denominator 0 ≠ 0 ∧
          safeDivide numerator denominator 0 =
            safeGetNumber numerator 0 / safeGetNumber denominator 0)) := by
  unfold safeDivide
  by_cases h : safeGetNumber denominator 0 = 0 <;> simp [h]

/-- Witness for C4 at the concrete input `5 / 0`. -/
theorem safeDivide_zero_denominator_witness :
    safeDivide (Value.num 5) (Value.num 0) 0 = 0 :=
  (safeDivide_zero_denominator (Value.num 5) (Value.num 0)).1 (by rfl)

/-- Claim C5: the categorical hash-embedding is deterministic (equal
strings give equal embeddings), and for every width `k` it has exactly
`k` components, each in the closed interval `[-1, 1]`. -/
theorem categorical_embedding_deterministic_bounded (s t : String) (k : Nat) :
    (s = t → categoricalToEmbeddings s k = categoricalToEmbeddings t k) ∧
      (categoricalToEmbeddings s k).length = k ∧
      ∀ x ∈ categoricalToEmbeddings s k, -1 ≤ x ∧ x ≤ 1 := by
  refine ⟨fun h => by rw [h], by simp [categoricalToEmbeddings], ?_⟩
  intro x hx
  unfold categoricalToEmbeddings at hx
  simp only [List.mem_map, List.mem_range] at hx
  obtain ⟨i, hi, hx⟩ := hx
  subst hx
  have hub : (md5Bytes (strBytes s)).getD
      (i % (md5Bytes (strBytes s)).length) 0 < 256 := by
    rcases getD_mem_or_default (md5Bytes (strBytes s))
        (i % (md5Bytes (strBytes s)).length) 0 with hmem | hdef
    · exact md5Bytes_lt _ _ hmem
    · rw [hdef]; norm_num
  set b := (md5Bytes (strBytes s)).getD (i % (md5Bytes (strBytes s)).length) 0
    with hb
  constructor
  · have h1 : (0 : ℚ) ≤ (b : ℚ) / 127.5 := by positivity
    linarith
  · have h2 : (b : ℚ) ≤ 255 := by exact_mod_cast Nat.le_of_lt_succ hub
    have h3 : (b : ℚ) / 127.5 ≤ 2 := by
      rw [div_le_iff₀ (by norm_num : (0 : ℚ) < 127.5)]
      linarith
    linarith

/-- Witness for C5 at the concrete string `"unknown"` and width 8. -/
theorem categorical_embedding_witness :
    (categoricalToEmbeddings "unknown" 8 = categoricalToEmbeddings "unknown" 8) ∧
      (categoricalToEmbeddings "unknown" 8).length = 8 ∧
      ∀ x ∈ categoricalToEmbeddings "unknown" 8, -1 ≤ x ∧ x ≤ 1 :=
  ⟨(categorical_embedding_deterministic_bounded "unknown" "unknown" 8).1 rfl,
   (categorical_embedding_deterministic_bounded "unknown" "unknown" 8).2⟩

/-- Claim C8: an empty batch passed to `fit_transform` is rejected with
sklearn's explicit validation error (zero samples), rather than silently
dividing by zero or returning a result. -/
theorem fit_empty_batch_rejected (sqrtQ : ℚ → ℚ) (target : Nat) :
    fitTransform sqrtQ target [] = Except.error PyErr.valueError := rfl

set_option maxRecDepth 100000 in
/-- Claim C9: identifier derivation is a pure function of the identifier
string — two derivations of the same string always agree (there is no
per-process randomization in MD5), and on the concrete identifier
`"RNA2424"` the derived integer is `0xcae5ea3f = 3404065343`, the value
any execution in any process computes. -/
theorem identifier_derivation_deterministic :
    (∀ s t : String, s = t → derivePropertyId s = derivePropertyId t) ∧
      derivePropertyId "RNA2424" = 3404065343 := by
  refine ⟨fun s t h => by rw [h], ?_⟩
  decide

/-- Witness for C9: the two runs on `"RNA2424"` agree. -/
theorem identifier_derivation_witness :
    derivePropertyId "RNA2424" = derivePropertyId "RNA2424" :=
  identifier_derivation_deterministic.1 "RNA2424" "RNA2424" rfl

set_option maxRecDepth 100000 in
/-- Counterexample to claim C2: on the scenario-1 record with target
dimensionality 8, the raw (pre-scaling) vector is the truncation of the
13 numeric passthrough features, `[0, 0, 0, 0, 3, 0, 1000, 0]`; its 7th
component (1-indexed — index 6) is the record's `sbua` value `1000`, and
its 0-indexed 7th component is `floorNumber = 0`.  Neither equals the
price-per-area 5000 the claim asserts; `pricing.totalAskPrice` is never
read by the extractor. -/
theorem c2_counterexample :
    rawVectors 8 [c2Record] = Except.ok [[0, 0, 0, 0, 3, 0, 1000, 0]] ∧
      (1000 : ℚ) ≠ 5000 ∧ (0 : ℚ) ≠ 5000 := by
  refine ⟨by rfl, by norm_num, by norm_num⟩

set_option maxRecDepth 100000 in
/-- Claim C2 (amended): on the scenario-1 record with target
dimensionality 8, the encoder yields an 8-element raw (pre-scaling)
vector equal to `[0, 0, 0, 0, 3, 0, 1000, 0]` — the first 8 of the 13
numeric passthrough features, whose 7th (1-indexed) component is the
record's `sbua` value 1000.  The feature schema has no price-per-area
feature and never reads the `pricing` group. -/
theorem c2_amended :
    rawVectors 8 [c2Record] = Except.ok [[0, 0, 0, 0, 3, 0, 1000, 0]] := by
  rfl

theorem isFinite_exists (pf : PyFloat) (h : PyFloat.isFinite pf = true) :
    ∃ q : ℚ, pf = PyFloat.finite q := by
  cases pf <;> simp [PyFloat.isFinite] at h ⊢

theorem ite_one_zero_finite (c : Prop) [Decidable c] :
    (if c then (1 : PyFloat) else 0) = PyFloat.finite (if c then 1 else 0) := by
  by_cases hc : c
  · rw [if_pos hc, if_pos hc]
    rfl
  · rw [if_neg hc, if_neg hc]
    rfl

set_option maxRecDepth 100000 in
/-- Counterexample to claim C3: `extract_features` neither returns a
feature mapping for every raw record, nor is every returned numeric
field finite.  On `{"rentalInfo": 5}` the expression
`(record.get("rentalInfo") or {}).get("rent")` calls `.get` on the
integer `5` and raises `AttributeError`; and on `{"sbua": "inf"}`
extraction succeeds but `float("inf")` converts to positive infinity,
so the `sbua` feature is a non-finite float. -/
theorem c3_counterexample :
    extractFeatures badGroupRecord = Except.error PyErr.attributeError ∧
      (extractFeatures badGroupRecord).isOk = false ∧
      featGet (featuresOf sbuaInfRecord) "sbua" = FeatVal.num PyFloat.inf ∧
      PyFloat.isFinite PyFloat.inf = false := by
  exact ⟨rfl, rfl, rfl, rfl⟩

/-- Claim C3 (amended): for every raw record on which `extract_features`
does not raise — every record whose `rentalInfo` and `_geoloc` values
are absent, falsy, or objects; in particular `None`, the empty record
and a record with explicit nulls in every predeclared field — the
returned mapping has exactly the predeclared keys (13 numeric fields, 13
categorical fields, plus `readyToMove`), every numeric field holds a
float equal to the `_safe_get_number` conversion of its raw source value
(hence finite exactly when that conversion is finite — so finite for
every source that is absent, null, a boolean, a finite number, an
object, an array, or a string not denoting an infinity or NaN),
`readyToMove` is always finite, and every categorical field holds a
non-empty string.  (On a record whose `rentalInfo` or `_geoloc` is a
truthy non-object, `extract_features` instead raises `AttributeError`;
on one with `"inf"`/`"nan"` in a numeric field the converted feature is
non-finite; see the counterexample.) -/
theorem extractFeatures_shape (r : RawRecord) (hr : GoodGroups r) :
    ∃ fs, extractFeatures r = Except.ok fs ∧
      fs.map Prod.fst = predeclaredKeys ∧
      (∀ k ∈ numericalFields, ∃ pf : PyFloat, featGet fs k = FeatVal.num pf) ∧
      (∃ q : ℚ, featGet fs "readyToMove" = FeatVal.num (PyFloat.finite q)) ∧
      (∀ k ∈ categoricalFields, ∃ s, featGet fs k = FeatVal.str s ∧ s ≠ "") ∧
      (∀ k ∈ numericalFields,
        featGet fs k = FeatVal.num (safeGetNumber (rawNumericSource r k) 0)) ∧
      (∀ k ∈ numericalFields,
        PyFloat.isFinite (safeGetNumber (rawNumericSource r k) 0) = true →
          ∃ q : ℚ, featGet fs k = FeatVal.num (PyFloat.finite q)) := by
  obtain ⟨h1, h2⟩ := hr
  rcases hri : getGroup (r.getD []) "rentalInfo" with e | ri
  · rw [hri] at h1
    simp [Except.isOk, Except.toBool] at h1
  rcases hgl : getGroup (r.getD []) "_geoloc" with e | gl
  · rw [hgl] at h2
    simp [Except.isOk, Except.toBool] at h2
  refine ⟨_, by simp only [extractFeatures, hri, hgl]; rfl,
    ?_, ?_, ?_, ?_, ?_, ?_⟩
  · rfl
  · intro k hk
    simp only [numericalFields, List.mem_cons, List.not_mem_nil,
      or_false] at hk
    rcases hk with rfl | rfl | rfl | rfl | rfl | rfl | rfl | rfl | rfl |
      rfl | rfl | rfl | rfl <;> exact ⟨_, rfl⟩
  · exact ⟨_, congrArg FeatVal.num (ite_one_zero_finite _)⟩
  · intro k hk
    simp only [categoricalFields, List.mem_cons, List.not_mem_nil,
      or_false] at hk
    rcases hk with rfl | rfl | rfl | rfl | rfl | rfl | rfl | rfl | rfl |
      rfl | rfl | rfl | rfl <;>
      exact ⟨_, rfl, safeGetString_ne_empty _ _ (by decide)⟩
  · intro k hk
    simp only [numericalFields, List.mem_cons, List.not_mem_nil,
      or_false] at hk
    rcases hk with rfl | rfl | rfl | rfl | rfl | rfl | rfl | rfl | rfl |
      rfl | rfl | rfl | rfl <;>
      (simp only [rawNumericSource, rentalGroup, geoGroup, hri, hgl,
        Except.toOption, Option.getD_some]; rfl)
  · intro k hk hfin
    simp only [numericalFields, List.mem_cons, List.not_mem_nil,
      or_false] at hk
    rcases hk with rfl | rfl | rfl | rfl | rfl | rfl | rfl | rfl | rfl |
      rfl | rfl | rfl | rfl <;>
      (simp only [rawNumericSource, rentalGroup, geoGroup, hri, hgl,
        Except.toOption, Option.getD_some] at hfin;
       obtain ⟨q, hq⟩ := isFinite_exists _ hfin;
       exact ⟨q, congrArg FeatVal.num hq⟩)

/-- Witness for C3 at the record `None` (Python `None`, treated as the
empty record). -/
theorem extractFeatures_shape_witness :
    ∃ fs, extractFeatures none = Except.ok fs ∧
      fs.map Prod.fst = predeclaredKeys ∧
      (∀ k ∈ numericalFields, ∃ pf : PyFloat, featGet fs k = FeatVal.num pf) ∧
      (∃ q : ℚ, featGet fs "readyToMove" = FeatVal.num (PyFloat.finite q)) ∧
      (∀ k ∈ categoricalFields, ∃ s, featGet fs k = FeatVal.str s ∧ s ≠ "") ∧
      (∀ k ∈ numericalFields,
        featGet fs k = FeatVal.num (safeGetNumber (rawNumericSource none k) 0)) ∧
      (∀ k ∈ numericalFields,
        PyFloat.isFinite (safeGetNumber (rawNumericSource none k) 0) = true →
          ∃ q : ℚ, featGet fs k = FeatVal.num (PyFloat.finite q)) :=
  extractFeatures_shape none ⟨by decide, by decide⟩

theorem isPyTrue_iff (v : Value) : isPyTrue v = true ↔ v = Value.bool true := by
  cases v with
  | null => simp [isPyTrue]
  | bool b => cases b <;> simp [isPyTrue]
  | num q => simp [isPyTrue]
  | str s => simp [isPyTrue]
  | obj o => simp [isPyTrue]
  | arr a => simp [isPyTrue]

/-- Claim C6: the `readyToMove` feature is `1` exactly when the source
value is literally the boolean `True` (`x is True`); every other value —
falsy, missing, null, or truthy non-boolean such as the number `1` or a
non-empty string — yields `0`. -/
theorem readyToMove_feature (r : RawRecord) (fs : Features)
    (h : extractFeatures r = Except.ok fs) :
    featGet fs "readyToMove" =
        (if isPyTrue (dictGet (r.getD []) "readyToMove") then FeatVal.num 1
          else FeatVal.num 0) ∧
      (featGet fs "readyToMove" = FeatVal.num 1 ↔
        dictGet (r.getD []) "readyToMove" = Value.bool true) := by
  rcases hri : getGroup (r.getD []) "rentalInfo" with e | ri
  · simp only [extractFeatures, hri] at h
    cases h
  rcases hgl : getGroup (r.getD []) "_geoloc" with e | gl
  · simp only [extractFeatures, hri, hgl] at h
    cases h
  simp only [extractFeatures, hri, hgl] at h
  cases h
  constructor
  · show FeatVal.num (if isPyTrue (dictGet (r.getD []) "readyToMove")
        then (1 : PyFloat) else 0) = _
    cases hx : isPyTrue (dictGet (r.getD []) "readyToMove") <;> simp [hx]
  · show (FeatVal.num (if isPyTrue (dictGet (r.getD []) "readyToMove")
        then (1 : PyFloat) else 0) = FeatVal.num 1) ↔ _
    rw [← isPyTrue_iff]
    cases hx : isPyTrue (dictGet (r.getD []) "readyToMove") <;> simp [hx] <;>
      decide

/-- Witness for C6 at the record `{"readyToMove": 1}`: the truthy
non-boolean `1` maps to the feature value `0`, not `1`. -/
theorem readyToMove_feature_witness :
    featGet (featuresOf readyNumRecord) "readyToMove" =
        (if isPyTrue (dictGet (readyNumRecord.getD []) "readyToMove")
          then FeatVal.num 1 else FeatVal.num 0) ∧
      (featGet (featuresOf readyNumRecord) "readyToMove" = FeatVal.num 1 ↔
        dictGet (readyNumRecord.getD []) "readyToMove" = Value.bool true) :=
  readyToMove_feature readyNumRecord (featuresOf readyNumRecord) rfl

/-- Claim C7 (amended): `transform` on a fresh (never fitted) encoder
never returns vectors: on every batch over which feature extraction
succeeds — in particular every batch of records without truthy
non-object nested groups, and the empty batch — it fails with sklearn's
uninitialized-state `NotFittedError`; on a batch containing a record
with a truthy non-object nested group it fails earlier, with the
extraction `AttributeError` (see the counterexample). -/
theorem transform_before_fit (target : Nat) (batch : List RawRecord) :
    (transformV target none batch).isOk = false ∧
      ((batch.mapM extractFeatures).isOk = true →
        transformV target none batch = Except.error PyErr.notFittedError) := by
  rcases h : batch.mapM extractFeatures with e | feats <;>
    simp only [transformV, h]
  · simp [Except.isOk, Except.toBool]
  · simp [Except.isOk, Except.toBool]

/-- Witness for C7 at the empty batch with target dimensionality 5. -/
theorem transform_before_fit_witness :
    (transformV 5 none []).isOk = false ∧
      transformV 5 none [] = Except.error PyErr.notFittedError :=
  ⟨(transform_before_fit 5 []).1, (transform_before_fit 5 []).2 rfl⟩

/-- Counterexample to claim C7: on the one-record batch
`[{"rentalInfo": 5}]`, `transform` on a fresh encoder fails with the
extraction `AttributeError`, not with the uninitialized-state
(`NotFittedError`) validation error the claim asserts for every batch. -/
theorem c7_counterexample :
    transformV 8 none [badGroupRecord] = Except.error PyErr.attributeError ∧
      PyErr.attributeError ≠ PyErr.notFittedError :=
  ⟨rfl, by decide⟩

theorem mem_rows_length {target : Nat} {feats : List Features}
    {w : List PyFloat} (hw : w ∈ feats.map (buildVector target)) :
    w.length = target := by
  obtain ⟨f, _, rfl⟩ := List.mem_map.mp hw
  exact buildVector_length target f

/-- Claim C1: every vector returned by `fit_transform`, and every vector
returned by `transform` on a fitted instance, has length exactly the
target dimensionality, for every batch and every target — the final
truncate-or-zero-pad step runs unconditionally on every per-record
vector, and the scaler rescales elementwise without changing length. -/
theorem vectors_have_target_length (sqrtQ : ℚ → ℚ) (target : Nat) :
    (∀ batch out, fitTransform sqrtQ target batch = Except.ok out →
      ∀ v ∈ out.1, v.length = target) ∧
    (∀ st batch out, transformV target (some st) batch = Except.ok out →
      ∀ v ∈ out, v.length = target) := by
  constructor
  · intro batch out h v hv
    rcases hm : batch.mapM extractFeatures with e | feats
    · simp only [fitTransform, hm] at h
      cases h
    · simp only [fitTransform, hm] at h
      split at h
      · cases h
      · split at h
        · cases h
        · cases h
          obtain ⟨w, hw, rfl⟩ := List.mem_map.mp hv
          rw [scaleRow_length]
          exact mem_rows_length hw
  · intro st batch out h v hv
    rcases hm : batch.mapM extractFeatures with e | feats
    · simp only [transformV, hm] at h
      cases h
    · simp only [transformV, hm] at h
      split at h
      · cases h
      · split at h
        · cases h
        · split at h
          · cases h
            obtain ⟨w, hw, rfl⟩ := List.mem_map.mp hv
            rw [scaleRow_length]
            exact mem_rows_length hw
          · cases h

set_option maxRecDepth 100000 in
/-- Witness for C1: a fit on the one-record batch `[None]` with target 2,
followed by a transform of the same batch with the state that fit
stored; every vector of both outputs has length 2. -/
theorem vectors_have_target_length_witness :
    (∀ v ∈ ((fitTransform sqrtOne 2 [none]).toOption.getD
        ([], { mean := [], scale := [] })).1, v.length = 2) ∧
      ∀ v ∈ (transformV 2
          (some ((fitTransform sqrtOne 2 [none]).toOption.getD
            ([], { mean := [], scale := [] })).2) [none]).toOption.getD [],
        v.length = 2 :=
  ⟨(vectors_have_target_length sqrtOne 2).1 [none]
      ((fitTransform sqrtOne 2 [none]).toOption.getD
        ([], { mean := [], scale := [] })) rfl,
   (vectors_have_target_length sqrtOne 2).2
      ((fitTransform sqrtOne 2 [none]).toOption.getD
        ([], { mean := [], scale := [] })).2 [none]
      ((transformV 2
          (some ((fitTransform sqrtOne 2 [none]).toOption.getD
            ([], { mean := [], scale := [] })).2) [none]).toOption.getD [])
      rfl⟩

theorem pf_sub_def (a b : PyFloat) : a - b = pfSub a b := rfl

theorem pf_div_def (a b : PyFloat) : a / b = pfDiv a b := rfl

theorem scalerFit_mean (sqrtQ : ℚ → ℚ) (rows : List (List PyFloat)) :
    (scalerFit sqrtQ rows).mean =
      (List.range (ncols rows)).map (fun j => nanmean (colVals rows j)) :=
  rfl

theorem scalerFit_scale (sqrtQ : ℚ → ℚ) (rows : List (List PyFloat)) :
    (scalerFit sqrtQ rows).scale =
      (List.range (ncols rows)).map (fun j =>
        let s := pfSqrt sqrtQ (nanvar (colVals rows j))
        if s = PyFloat.finite 0 then PyFloat.finite 1 else s) :=
  rfl

theorem scaleRow_single (sqrtQ : ℚ → ℚ) (w : List PyFloat)
    (hw : ∀ x ∈ w, PyFloat.isInfinite x = false) :
    scaleRow (scalerFit sqrtQ [w]).mean (scalerFit sqrtQ [w]).scale w =
      w.map (fun x => if PyFloat.isNan x then PyFloat.nan
        else PyFloat.finite 0) := by
  apply List.ext_getElem
  · simp [scaleRow]
  intro j h1 h2
  have hj : j < w.length := by simpa [scaleRow] using h1
  have hn : j < ncols [w] := by simpa [ncols] using hj
  simp only [scaleRow, List.getElem_map, List.getElem_range]
  have hwj : w.getD j 0 = w[j] := by
    rw [List.getD_eq_getElem?_getD, List.getElem?_eq_getElem hj]
    rfl
  have hwj2 : w[j]?.getD 0 = w[j] := by
    rw [List.getElem?_eq_getElem hj]
    rfl
  have hmean : (scalerFit sqrtQ [w]).mean.getD j 0 =
      nanmean [w[j]] := by
    rw [scalerFit_mean, getD_range_map _ _ _ _ hn]
    simp [colVals, hwj2]
  have hscale : (scalerFit sqrtQ [w]).scale.getD j 0 =
      (let s := pfSqrt sqrtQ (nanvar [w[j]])
        if s = PyFloat.finite 0 then PyFloat.finite 1 else s) := by
    rw [scalerFit_scale, getD_range_map _ _ _ _ hn]
    simp [colVals, hwj2]
  rw [hwj, hmean, hscale]
  rcases hx : w[j] with q | _ | _ | _
  · have hmq : nanmean [PyFloat.finite q] = PyFloat.finite q := by
      simp [nanmean, finiteVals]
    rw [hmq]
    have hsub : PyFloat.finite q - PyFloat.finite q = PyFloat.finite 0 := by
      rw [pf_sub_def]
      simp [pfSub, pfNeg, pfAdd]
    rw [hsub]
    have hvar : ∃ v : ℚ, nanvar [PyFloat.finite q] = PyFloat.finite v := by
      simp only [nanvar, finiteVals, List.filterMap_cons, List.filterMap_nil]
      exact ⟨_, rfl⟩
    obtain ⟨v, hv⟩ := hvar
    rw [hv]
    simp only [pfSqrt, PyFloat.isNan]
    by_cases hc : sqrtQ v = 0
    · rw [if_pos (by rw [hc]), pf_div_def]
      simp [pfDiv]
    · rw [if_neg (by simpa using hc), pf_div_def]
      simp [pfDiv, hc]
  · have := hw w[j] (List.getElem_mem hj)
    rw [hx] at this
    simp [PyFloat.isInfinite] at this
  · have := hw w[j] (List.getElem_mem hj)
    rw [hx] at this
    simp [PyFloat.isInfinite] at this
  · have hmn : nanmean [PyFloat.nan] = PyFloat.nan := by
      simp [nanmean, finiteVals]
    rw [hmn, pf_sub_def]
    simp [pfSub, pfNeg, pfAdd, pf_div_def, pfDiv, PyFloat.isNan]

/-- Claim C10 (amended): whenever `fit_transform` on a batch of exactly
one record returns at all — i.e. feature extraction does not raise and
the built vector contains no infinity (an infinity is rejected by the
scaler's input validation with `ValueError`) — each component of the
returned vector is `0` where the raw (pre-scaling) component is not NaN
and NaN where it is NaN: with one sample, every finite column's mean is
the sample itself and the zero-variance fallback scale applies, while an
all-NaN column keeps NaN.  In particular the result is the all-zero
vector of the target length whenever the raw vector is NaN-free, so the
`/properties/vectorize` endpoint (fresh encoder, default target 128,
one-element batch) stores the all-zero 128-vector whenever it succeeds
on a payload whose raw vector is NaN-free. -/
theorem single_record_fit_zero (sqrtQ : ℚ → ℚ) :
    (∀ target r f out, extractFeatures r = Except.ok f →
      fitTransform sqrtQ target [r] = Except.ok out →
      out.1 = [(buildVector target f).map (fun x =>
        if PyFloat.isNan x then PyFloat.nan else PyFloat.finite 0)]) ∧
    (∀ target r f out, extractFeatures r = Except.ok f →
      (buildVector target f).all (fun x => !PyFloat.isNan x) = true →
      fitTransform sqrtQ target [r] = Except.ok out →
      out.1 = [List.replicate target (PyFloat.finite 0)]) ∧
    (∀ payload f v, extractFeatures (some payload) = Except.ok f →
      (buildVector 128 f).all (fun x => !PyFloat.isNan x) = true →
      vectorizeEndpointVector sqrtQ payload = Except.ok v →
      v = List.replicate 128 (PyFloat.finite 0)) := by
  have main : ∀ target r f out, extractFeatures r = Except.ok f →
      fitTransform sqrtQ target [r] = Except.ok out →
      out.1 = [(buildVector target f).map (fun x =>
        if PyFloat.isNan x then PyFloat.nan else PyFloat.finite 0)] := by
    intro target r f out hre h
    have hm : List.mapM extractFeatures [r] = Except.ok [f] := by
      simp [List.mapM, List.mapM.loop, hre]
    simp only [fitTransform, hm] at h
    split at h
    · cases h
    · split at h
      · cases h
      · rename_i hne hinf
        cases h
        simp only [List.map_cons, List.map_nil]
        have hw : ∀ x ∈ buildVector target f, PyFloat.isInfinite x = false := by
          intro x hx
          by_contra hcon
          apply hinf
          simp only [hasInfinity, List.map_cons, List.map_nil, List.any_cons,
            List.any_nil, Bool.or_false]
          rw [List.any_eq_true]
          exact ⟨x, hx, by simpa using hcon⟩
        rw [scaleRow_single sqrtQ _ hw]
  have zeroed : ∀ target r f out, extractFeatures r = Except.ok f →
      (buildVector target f).all (fun x => !PyFloat.isNan x) = true →
      fitTransform sqrtQ target [r] = Except.ok out →
      out.1 = [List.replicate target (PyFloat.finite 0)] := by
    intro target r f out hre hnan h
    rw [main target r f out hre h]
    have hmap : (buildVector target f).map (fun x =>
        if PyFloat.isNan x then PyFloat.nan else PyFloat.finite 0) =
        List.replicate target (PyFloat.finite 0) := by
      rw [List.eq_replicate_iff]
      constructor
      · simp [buildVector_length]
      · intro b hb
        simp only [List.mem_map] at hb
        obtain ⟨x, hx, rfl⟩ := hb
        have hxn : PyFloat.isNan x = false := by
          simpa using List.all_eq_true.mp hnan x hx
        simp [hxn]
    rw [hmap]
  refine ⟨main, zeroed, ?_⟩
  intro payload f v hre hnan h
  unfold vectorizeEndpointVector at h
  rcases hf : fitTransform sqrtQ 128 [some payload] with e | out
  · rw [hf] at h
    simp only [Except.map] at h
    cases h
  · rw [hf] at h
    simp only [Except.map] at h
    cases h
    rw [zeroed 128 (some payload) f out hre hnan hf]
    rfl

set_option maxRecDepth 1000000 in
/-- Witness for C10: the fit on `[None]` with target 1 yields the single
vector with zeroes at non-NaN positions (here: everywhere, giving the
all-zero 1-vector), and the endpoint vector of the empty payload is the
all-zero 128-vector. -/
theorem single_record_fit_zero_witness :
    ((fitTransform sqrtOne 1 [none]).toOption.getD
        ([], { mean := [], scale := [] })).1 =
      [(buildVector 1 (featuresOf none)).map (fun x =>
        if PyFloat.isNan x then PyFloat.nan else PyFloat.finite 0)] ∧
    ((fitTransform sqrtOne 1 [none]).toOption.getD
        ([], { mean := [], scale := [] })).1 =
      [List.replicate 1 (PyFloat.finite 0)] ∧
    (vectorizeEndpointVector sqrtOne []).toOption.getD [] =
      List.replicate 128 (PyFloat.finite 0) :=
  ⟨(single_record_fit_zero sqrtOne).1 1 none (featuresOf none) _ rfl rfl,
   (single_record_fit_zero sqrtOne).2.1 1 none (featuresOf none) _ rfl rfl rfl,
   (single_record_fit_zero sqrtOne).2.2 [] (featuresOf (some [])) _ rfl rfl rfl⟩

set_option maxRecDepth 400000 in
/-- Counterexample to claim C10: `fit_transform` on a one-record batch
does not always return the all-zero vector.  On `[{"sbua": "inf"}]`
extraction succeeds but the scaler's input validation rejects the
infinity with `ValueError` — nothing is returned and the endpoint
stores nothing; and on `[{"sbua": "nan"}]` with target 8 the returned
vector's 7th component (index 6, the `sbua` column) is NaN, not `0`. -/
theorem c10_counterexample :
    fitTransform sqrtOne 8 [sbuaInfRecord] = Except.error PyErr.valueError ∧
      (extractFeatures sbuaInfRecord).isOk = true ∧
      ((((fitTransform sqrtOne 8 [sbuaNanRecord]).toOption.getD
          ([], { mean := [], scale := [] })).1.getD 0 []).getD 6 0) =
        PyFloat.nan ∧
      PyFloat.nan ≠ PyFloat.finite 0 ∧
      (vectorizeEndpointVector sqrtOne [("sbua", Value.str "inf")]).isOk =
        false := by
  refine ⟨rfl, rfl, rfl, by decide, rfl⟩
